import Mathlib

/-!
Verification of the SimuCFO upload-and-orchestrate backend.

This file gives a shallow embedding of the request handler
`exports.handleUpload` (src/unnamed/part_006, lines 193-376, the
controller variant wired to `upload.array` that all spec claims cite),
of the multer upload stage (disk-storage filename generator and PDF
file filter, src/frontend/src/pages/data.tsx lines 300-340 and
src/unnamed/part_003 lines 20-44), of the question escaping used before
the Monte Carlo subprocess call, and of the storage configuration module
(src/backend/config/supabase.js).

External effects (the Supabase storage backend, the filesystem around
the artifact files, and the two Python subprocesses) are oracles in an
`Env` record; the handler is a pure function from a request and an
environment to an `Outcome` that records every response-send the handler
attempts (in order) plus the storage/subprocess actions it performs.
Under Express, only the first send in `sends` reaches the client; later
sends raise `ERR_HTTP_HEADERS_SENT`.  `clientResponse` therefore takes
the head of `sends`.
-/

set_option autoImplicit false

namespace SimuCFO

/-- Minimal JSON tree for artifact contents and response payloads. -/
inductive Json where
  | null : Json
  | str : String → Json
  | num : Int → Json
  | obj : List (String × Json) → Json

/-- One element of the `files` array in a success response
(part_006 lines 223-228). -/
structure FileEntry where
  originalName : String
  storedName : String
  supabasePath : String
  publicUrl : String
  deriving DecidableEq

/-- Shape of the `responseData` object assembled at part_006 lines
339-357 (never actually delivered; see `collectResult`). -/
structure RespData where
  question : String
  answer : Json
  reasoning : String

/-- One attempted `res.status(..).send/json(..)` call.  Absent JSON
fields are `none`. -/
structure Response where
  status : Nat
  message : String
  files : Option (List FileEntry) := none
  analysis : Option Json := none
  data : Option RespData := none

/-- Observable side effects of the handler: a storage `upload` call for
a stored name, a storage `download` call, and the two subprocess
invocations (the Monte Carlo one carries the escaped question argument
interpolated into the command line at part_006 line 305). -/
inductive Action where
  | put : String → Action
  | download : String → Action
  | execPdf : Action
  | execMC : String → Action
  deriving DecidableEq

/-- Result of running the handler on one request. -/
structure Outcome where
  sends : List Response
  actions : List Action
  bucket : List String

/-- The response the HTTP client actually receives: the first send wins;
Express rejects every later send (headers already sent). -/
def clientResponse (o : Outcome) : Option Response :=
  o.sends.head?

/-- A file record as multer leaves it on `req.files`. -/
structure ReqFile where
  fieldname : String
  originalname : String
  filename : String
  path : String
  deriving DecidableEq

/-- The request data the handler consumes: `req.files` and
`req.body.question` (`none` when the field is absent). -/
structure Request where
  files : List ReqFile
  question : Option String

/-- Environment oracles for everything outside the handler: bucket
contents before the request, transport-level failure of storage
`upload` per name, failure of the bucket `list` call, public URL
construction, failure of the two subprocesses, and existence/content of
the two artifact files at result-collection time. Per-object `download`
failures are invisible in this model: the code only logs and skips them
(part_006 lines 260-263) and the local disk is not otherwise observed. -/
structure Env where
  bucket0 : List String
  putTransport : String → Option String
  publicUrl : String → String
  listErr : Option String
  pdfErr : Option String
  mcErr : String → Option String
  fullAnalysisExists : Bool
  metricsExists : Bool
  metrics : Json

/-- Error message Supabase storage returns for an `upload` with
`upsert: false` when the object name already exists. -/
def dupErrMsg : String := "The resource already exists"

/-- One storage `upload` call (part_006 lines 208-213): with upsert
disabled a name already in the bucket is a failure; otherwise the
transport oracle decides; on success the bucket gains the name. -/
def putOne (env : Env) (bucket : List String) (name : String) :
    Except String (List String) :=
  if bucket.contains name then .error dupErrMsg
  else
    match env.putTransport name with
    | some e => .error e
    | none => .ok (bucket ++ [name])

/-- The `files` array entry pushed for one uploaded file (part_006
lines 219-228): Supabase reports `data.path` equal to the uploaded
name, and `getPublicUrl` is a pure lookup on that path. -/
def entryOf (env : Env) (f : ReqFile) : FileEntry :=
  { originalName := f.originalname
    storedName := f.filename
    supabasePath := f.filename
    publicUrl := env.publicUrl f.filename }

/-- Result of the upload loop: actions performed, bucket afterwards,
and either the accumulated entries or the first error (which the code
`throw`s, aborting the loop). -/
structure UploadRes where
  acts : List Action
  bucket : List String
  result : Except String (List FileEntry)

/-- The `for (const file of files)` upload loop, part_006 lines
204-229. -/
def uploadLoop (env : Env) : List ReqFile → List String → UploadRes
  | [], bucket => ⟨[], bucket, .ok []⟩
  | f :: rest, bucket =>
    match putOne env bucket f.filename with
    | .error e => ⟨[Action.put f.filename], bucket, .error e⟩
    | .ok bucket1 =>
      let u := uploadLoop env rest bucket1
      ⟨Action.put f.filename :: u.acts, u.bucket,
        u.result.map (fun es => entryOf env f :: es)⟩

/-- The download loop over the bucket listing, part_006 lines 252-272:
the placeholder object is skipped, every other object gets a `download`
call (failures are logged and skipped, leaving no observable here). -/
def downloadLoop : List String → List Action
  | [] => []
  | n :: rest =>
    if n = ".emptyFolderPlaceholder" then downloadLoop rest
    else Action.download n :: downloadLoop rest

/-- Default question substituted by `req.body.question || ...` at
part_006 line 293. -/
def defaultQuestion : String := "Run a comprehensive financial risk analysis"

/-- JavaScript `req.body.question || default`: the default replaces an
absent field and the falsy empty string. -/
def userQuestionOf (req : Request) : String :=
  match req.question with
  | none => defaultQuestion
  | some q => if q = "" then defaultQuestion else q

/-- Character-level version of `userQuestion.replace(/"/g, '\\"')`
(part_006 line 301): every double quote gains a preceding backslash. -/
def escapeChars : List Char → List Char
  | [] => []
  | c :: rest =>
    if c = '"' then '\\' :: '"' :: escapeChars rest
    else c :: escapeChars rest

/-- The `escapedQuestion` computed at part_006 line 301. -/
def escapeQuestion (s : String) : String :=
  ⟨escapeChars s.data⟩

/-- Result collection, part_006 lines 336-357, which runs after the
response at lines 331-334 has already been sent.  Both artifact
branches build an object literal whose first property reads the
identifier `question`, which is not defined anywhere in the function
(the variable is `userQuestion`), so both branches raise
`ReferenceError: question is not defined` before any further send; the
no-artifact branch throws its own error.  The function therefore never
returns data. -/
def collectResult (env : Env) : Except String RespData :=
  if env.fullAnalysisExists then .error "question is not defined"
  else if env.metricsExists then .error "question is not defined"
  else .error "No analysis output file found."

/-- Message of the error that result collection raises. -/
def collectErrMsg (env : Env) : String :=
  match collectResult env with
  | .error e => e
  | .ok _ => ""

/-- Message of the 400 response for a request with no accepted file. -/
def noFileMsg : String := "No file uploaded"

/-- Message of the 200 response on a bucket listing failure (part_006
line 368). -/
def skipMsg : String := "Files uploaded, but processing skipped due to listing error."

/-- Message of the 200 response sent at part_006 line 332. -/
def processedMsg : String := "Files processed and simulation complete"

/-- Shallow embedding of `exports.handleUpload`, part_006 lines
193-376.  The branches follow the source in order: empty-files check
(195-199); upload loop with `throw` on error (204-229) caught at 372-375
as a 500; listing failure branch (239-241 and 366-370); download loop
(252-272); PDF processor subprocess with failure wrapped and re-thrown
(282-289); Monte Carlo subprocess likewise (301-313); the
computed-metrics read into `analysisResult` (316-329, `none` when the
file is missing, read errors only logged); the send at 331-334; and
result collection (336-357), which always throws (see `collectResult`),
so the catch block attempts one more send, a 500 with the thrown
message. -/
def handleUpload (req : Request) (env : Env) : Outcome :=
  match req.files with
  | [] => { sends := [{ status := 400, message := noFileMsg }],
            actions := [], bucket := env.bucket0 }
  | _ :: _ =>
    let u := uploadLoop env req.files env.bucket0
    match u.result with
    | .error e =>
      { sends := [{ status := 500, message := e }],
        actions := u.acts, bucket := u.bucket }
    | .ok results =>
      match env.listErr with
      | some _ =>
        { sends := [{ status := 200, message := skipMsg, files := some results }],
          actions := u.acts, bucket := u.bucket }
      | none =>
        let dlActs := downloadLoop u.bucket
        let acts2 := u.acts ++ dlActs ++ [Action.execPdf]
        match env.pdfErr with
        | some e =>
          { sends := [{ status := 500, message := "PDF Processor failed: " ++ e }],
            actions := acts2, bucket := u.bucket }
        | none =>
          let eq := escapeQuestion (userQuestionOf req)
          let acts3 := acts2 ++ [Action.execMC eq]
          match env.mcErr eq with
          | some e =>
            { sends := [{ status := 500,
                          message := "Monte Carlo simulation failed: " ++ e }],
              actions := acts3, bucket := u.bucket }
          | none =>
            let analysisResult := if env.metricsExists then some env.metrics else none
            { sends := [{ status := 200, message := processedMsg,
                          analysis := analysisResult },
                        { status := 500, message := collectErrMsg env }],
              actions := acts3, bucket := u.bucket }

/-! ### Multer upload stage

From the disk-storage configuration shared by
src/frontend/src/pages/data.tsx (lines 308-331, the variant routing to
this controller with `upload.array`) and src/unnamed/part_003 lines
20-44: the stored filename is
`fieldname + '-' + Date.now() + '-' + Math.round(Math.random()*1e9) +
path.extname(originalname)`, and the file filter rejects any part whose
mimetype is not `application/pdf` by passing an `Error` to the
callback, which makes multer abort the whole request before the
controller runs. -/

/-- One incoming multipart file part, before multer processes it. -/
structure Part where
  fieldname : String
  originalname : String
  mimetype : String
  deriving DecidableEq

/-- Characters of the final path component (after the last slash). -/
def lastComponent (l : List Char) : List Char :=
  l.foldl (fun acc c => if c = '/' then [] else acc ++ [c]) []

/-- Characters after the last dot, or `none` when there is no dot. -/
def afterLastDot : List Char → Option (List Char)
  | [] => none
  | c :: rest =>
    match afterLastDot rest with
    | some e => some e
    | none => if c = '.' then some rest else none

/-- Node's `path.extname` on the cases that occur here: the extension
of the final path component, empty when there is no dot or the only dot
starts the component. The special-cased component `..` (extension
empty in Node) is handled explicitly; other multi-leading-dot corners
are not exercised by any theorem below. -/
def extnameChars (l : List Char) : List Char :=
  let b := lastComponent l
  if b = ['.', '.'] then []
  else
    match afterLastDot b with
    | none => []
    | some e => if e.length + 1 = b.length then [] else '.' :: e

/-- String-level `path.extname`. -/
def extname (s : String) : String :=
  ⟨extnameChars s.data⟩

/-- The generated stored filename (data.tsx lines 317-322): field name,
hyphen, timestamp, hyphen, random suffix, original extension. -/
def generatedFilename (fieldname originalname : String) (ts rnd : Nat) : String :=
  fieldname ++ "-" ++ toString ts ++ "-" ++ toString rnd ++ extname originalname

/-- The multer file filter (data.tsx lines 324-333): accept exactly the
parts declared `application/pdf`. -/
def fileFilterAccepts (p : Part) : Bool :=
  p.mimetype = "application/pdf"

/-- Error message the filter passes to the callback for a rejected
part. -/
def filterErrMsg : String := "Only .pdf format allowed!"

/-- The `req.files` record multer builds for an accepted part: stored
under `uploads/` with the generated name. `stamp i` supplies the
`Date.now()` value and the rounded random draw observed while the
`i`-th part is processed. -/
def mkReqFile (p : Part) (st : Nat × Nat) : ReqFile :=
  { fieldname := p.fieldname
    originalname := p.originalname
    filename := generatedFilename p.fieldname p.originalname st.1 st.2
    path := "uploads/" ++ generatedFilename p.fieldname p.originalname st.1 st.2 }

/-- Multer's processing of the incoming parts, in order: the first part
the filter rejects aborts the request with the filter's error (the
controller never runs); otherwise every part becomes a `ReqFile`. -/
def multerProcess (stamp : Nat → Nat × Nat) :
    List Part → Nat → Except String (List ReqFile)
  | [], _ => .ok []
  | p :: rest, i =>
    if fileFilterAccepts p then
      (multerProcess stamp rest (i + 1)).map (fun fs => mkReqFile p (stamp i) :: fs)
    else .error filterErrMsg

/-- The whole `POST /upload` pipeline: multer, then the controller.
An `.error` means multer aborted the request before the controller ran,
so no storage action happens and no `files` array is ever produced. -/
def fullPipeline (parts : List Part) (stamp : Nat → Nat × Nat)
    (question : Option String) (env : Env) : Except String Outcome :=
  (multerProcess stamp parts 0).map
    (fun fs => handleUpload { files := fs, question := question } env)

/-! ### Shell interpretation of the escaped question

The Monte Carlo command (part_006 line 305) interpolates
`escapedQuestion` between double quotes into a string handed to
`child_process.exec`, i.e. to `/bin/sh -c`.  `shDQChars` computes the
argument the subprocess receives from the characters placed between
the double quotes, following POSIX double-quote rules: a backslash
escapes `$`, a backtick, a double quote or a backslash; other
backslashes stay literal.  Constructs whose value depends on state not
modelled here — unescaped `$` or backtick (expansion or command
substitution), a backslash-newline continuation, an unescaped double
quote (which ends the argument early), and a trailing backslash (which
swallows the closing quote) — yield `none`. -/

/-- POSIX processing of a double-quoted character sequence. -/
def shDQChars : List Char → Option (List Char)
  | [] => some []
  | c :: rest =>
    if c = '\\' then
      match rest with
      | [] => none
      | d :: rest2 =>
        if d = '$' ∨ d = '`' ∨ d = '"' ∨ d = '\\' then
          (shDQChars rest2).map (d :: ·)
        else if d = '\n' then none
        else (shDQChars rest2).map (fun r => '\\' :: d :: r)
    else if c = '"' ∨ c = '$' ∨ c = '`' then none
    else (shDQChars rest).map (c :: ·)

/-- The argument the simulation process receives when `s` is placed
between double quotes on the `exec` command line (`none` when its value
depends on shell state not modelled here). -/
def shDQ (s : String) : Option String :=
  (shDQChars s.data).map (fun l => ⟨l⟩)

/-- Escaped question strings carried by Monte Carlo invocations in an
action trace. -/
def mcQuestions (o : Outcome) : List String :=
  o.actions.filterMap (fun a =>
    match a with
    | Action.execMC s => some s
    | _ => none)

/-! ### Storage configuration module

From src/backend/config/supabase.js: the module reads the two
environment variables, warns on the console when either is missing (a
JavaScript falsy check, so an absent or empty value), then constructs
the client and exports it; the module body contains no throwing
statement of its own. -/

/-- Environment variables visible at startup; `none` is an unset
variable. -/
structure StartupEnv where
  supabaseUrl : Option String
  supabaseKey : Option String

/-- JavaScript falsiness of `process.env.X`: unset or the empty
string. -/
def isFalsyEnv : Option String → Bool
  | none => true
  | some s => s = ""

/-- The constructed storage client, holding whatever credentials were
present. -/
structure StorageClient where
  url : Option String
  key : Option String

/-- Modelled from the spec: `createClient` of `@supabase/supabase-js`
is external to this repository; per the spec's external-interface
contract (§4.2, §6) it constructs a client value and storage operations
fail per call, at request time. -/
def createClient (url key : Option String) : StorageClient :=
  { url := url, key := key }

/-- Observable result of loading src/backend/config/supabase.js:
whether the warning was printed, and the exported client. -/
structure SupabaseModule where
  warned : Bool
  client : StorageClient

/-- Loading the configuration module (supabase.js lines 1-13). -/
def loadSupabaseConfig (env : StartupEnv) : SupabaseModule :=
  { warned := isFalsyEnv env.supabaseUrl || isFalsyEnv env.supabaseKey
    client := createClient env.supabaseUrl env.supabaseKey }

/-- Modelled from the spec: a storage `put` through a client with
missing credentials fails at request time with a transport error (§6:
"fail storage calls at request time"); with credentials present the
backend decides. -/
def clientPut (c : StorageClient) (name : String)
    (backend : String → Except String String) : Except String String :=
  if isFalsyEnv c.url || isFalsyEnv c.key then
    .error "TypeError: fetch failed"
  else backend name

/-! ### Concrete inputs used to evaluate the model -/

/-- An environment where every external step succeeds and the Monte
Carlo run leaves only the metrics-only artifact. -/
def baseEnv : Env :=
  { bucket0 := []
    putTransport := fun _ => none
    publicUrl := fun p => "https://example.supabase.co/storage/v1/object/public/pdfs/" ++ p
    listErr := none
    pdfErr := none
    mcErr := fun _ => none
    fullAnalysisExists := false
    metricsExists := true
    metrics := Json.obj [("final_cash_balance", Json.num 250000)] }

/-- A request posting one PDF named `report.pdf` with the question from
the spec's end-to-end scenario. -/
def reqPdf : Request :=
  { files := [{ fieldname := "pdfFile", originalname := "report.pdf",
                filename := "pdfFile-1757400000000-123456789.pdf",
                path := "uploads/pdfFile-1757400000000-123456789.pdf" }]
    question := some "What is the Q3 burn rate?" }

/-- Environment where the comprehensive artifact
`monte_carlo_analysis.json` exists (and the metrics-only one does
not). -/
def envFullArtifact : Env :=
  { baseEnv with fullAnalysisExists := true, metricsExists := false }

/-- Environment where the bucket listing call fails. -/
def envListFail : Env :=
  { baseEnv with listErr := some "Bucket listing failed" }

/-- A stored name already present in the bucket, so that its re-upload
with `upsert: false` fails. -/
def dupFile : ReqFile :=
  { fieldname := "pdfFile", originalname := "report.pdf",
    filename := "pdfFile-9-9.pdf", path := "uploads/pdfFile-9-9.pdf" }

/-- Environment whose bucket already contains `dupFile`'s stored
name. -/
def envDup : Env :=
  { baseEnv with bucket0 := ["pdfFile-9-9.pdf"] }

/-- A well-formed PDF part. -/
def pdfPart : Part :=
  { fieldname := "pdfFile", originalname := "report.pdf",
    mimetype := "application/pdf" }

/-- A part whose declared content type is not `application/pdf`. -/
def pngPart : Part :=
  { fieldname := "pdfFile", originalname := "logo.png",
    mimetype := "image/png" }

/-- A part whose original name is exactly the name the disk-storage
filename generator produces for timestamp 1700000000000 and random
suffix 123456789: field name, hyphen, timestamp, hyphen, suffix, and
the `.pdf` extension copied from the original name. -/
def collidingPart : Part :=
  { fieldname := "pdfFile",
    originalname := "pdfFile-1700000000000-123456789.pdf",
    mimetype := "application/pdf" }

/-- Stamp oracle reproducing timestamp 1700000000000 and random draw
123456789 for every part. -/
def collidingStamp : Nat → Nat × Nat := fun _ => (1700000000000, 123456789)

/-- Stamp oracle for the witness run. -/
def wStamp : Nat → Nat × Nat := fun _ => (1757, 42)

/-- The files entry produced for `pdfPart` under `wStamp`. -/
def wEntry : FileEntry :=
  { originalName := "report.pdf"
    storedName := "pdfFile-1757-42.pdf"
    supabasePath := "pdfFile-1757-42.pdf"
    publicUrl := "https://example.supabase.co/storage/v1/object/public/pdfs/pdfFile-1757-42.pdf" }

/-- The files-bearing response of the witness run (listing fails, so
the upload-only success response is the one the client receives). -/
def wResp : Response :=
  { status := 200, message := skipMsg, files := some [wEntry] }

/-- The full outcome of the witness run. -/
def wOut : Outcome :=
  { sends := [wResp]
    actions := [Action.put "pdfFile-1757-42.pdf"]
    bucket := ["pdfFile-1757-42.pdf"] }

/-! ### Helper lemmas about the upload loop and download loop -/

/-- Every action the upload loop performs is a storage put. -/
theorem uploadLoop_acts_put (env : Env) :
    ∀ (fs : List ReqFile) (bucket : List String),
      ∀ a ∈ (uploadLoop env fs bucket).acts, ∃ n, a = Action.put n := by
  intro fs
  induction fs with
  | nil => intro bucket a ha; simp [uploadLoop] at ha
  | cons f rest ih =>
    intro bucket a ha
    simp only [uploadLoop] at ha
    split at ha
    · simp at ha
      exact ⟨f.filename, ha⟩
    · simp at ha
      rcases ha with h | h
      · exact ⟨f.filename, h⟩
      · exact ih _ a h

/-- On success the upload loop returns exactly one entry per request
file, in order. -/
theorem uploadLoop_result_ok (env : Env) :
    ∀ (fs : List ReqFile) (bucket : List String) (es : List FileEntry),
      (uploadLoop env fs bucket).result = .ok es → es = fs.map (entryOf env) := by
  intro fs
  induction fs with
  | nil =>
    intro bucket es h
    simp [uploadLoop] at h
    simp [h.symm]
  | cons f rest ih =>
    intro bucket es h
    simp only [uploadLoop] at h
    split at h
    · simp at h
    · rename_i bucket1 _
      cases hr : (uploadLoop env rest bucket1).result with
      | error e => rw [hr] at h; simp [Except.map] at h
      | ok es1 =>
        rw [hr] at h
        simp [Except.map] at h
        simp [h.symm, ih bucket1 es1 hr]

/-- Every action the download loop performs is a storage download. -/
theorem downloadLoop_acts (l : List String) :
    ∀ a ∈ downloadLoop l, ∃ n, a = Action.download n := by
  induction l with
  | nil => intro a ha; simp [downloadLoop] at ha
  | cons n rest ih =>
    intro a ha
    simp only [downloadLoop] at ha
    split at ha
    · exact ih a ha
    · rcases ha with _ | ⟨_, h⟩
      · exact ⟨n, rfl⟩
      · exact ih a h

/-- Any response the handler emits that carries a `files` array carries
exactly the entries of a fully successful upload loop, one per request
file, in order. -/
theorem handleUpload_files_sends (req : Request) (env : Env)
    (resp : Response) (hresp : resp ∈ (handleUpload req env).sends)
    (es : List FileEntry) (hfiles : resp.files = some es) :
    es = req.files.map (entryOf env) := by
  obtain ⟨files, q⟩ := req
  cases files with
  | nil =>
    simp only [handleUpload] at hresp
    simp at hresp
    rw [hresp] at hfiles
    simp at hfiles
  | cons f fs =>
    simp only [handleUpload] at hresp
    split at hresp
    · simp at hresp
      rw [hresp] at hfiles
      simp at hfiles
    · rename_i results hu
      split at hresp
      · simp at hresp
        rw [hresp] at hfiles
        simp at hfiles
        rw [← hfiles]
        exact uploadLoop_result_ok env (f :: fs) env.bucket0 results hu
      · split at hresp
        · simp at hresp
          rw [hresp] at hfiles
          simp at hfiles
        · split at hresp
          · simp at hresp
            rw [hresp] at hfiles
            simp at hfiles
          · simp at hresp
            rcases hresp with h | h <;> rw [h] at hfiles <;> simp at hfiles

/-- A trace of puts, then downloads, then the extraction subprocess,
then one Monte Carlo invocation holds exactly that one simulation
question. -/
theorem mcFilter_trace (l1 l2 : List Action) (s : String)
    (h1 : ∀ a ∈ l1, ∃ n, a = Action.put n)
    (h2 : ∀ a ∈ l2, ∃ n, a = Action.download n) :
    List.filterMap
      (fun a => match a with | Action.execMC s => some s | _ => none)
      (l1 ++ l2 ++ [Action.execPdf] ++ [Action.execMC s]) = [s] := by
  rw [List.filterMap_append, List.filterMap_append, List.filterMap_append]
  have e1 : List.filterMap
      (fun a => match a with | Action.execMC s => some s | _ => none) l1 = [] := by
    rw [List.filterMap_eq_nil_iff]
    intro a ha
    rcases h1 a ha with ⟨n, rfl⟩
    rfl
  have e2 : List.filterMap
      (fun a => match a with | Action.execMC s => some s | _ => none) l2 = [] := by
    rw [List.filterMap_eq_nil_iff]
    intro a ha
    rcases h2 a ha with ⟨n, rfl⟩
    rfl
  simp [e1, e2]

/-! ### Claims C7, C2, C3 -/

/-- Claim C7: for every upload request that contains no accepted file
part, the handler responds with HTTP status 400 and body
message "No file uploaded", and no storage or subprocess operation is
performed (the action trace is empty and the bucket is untouched). -/
theorem claim_C7_no_file (req : Request) (env : Env) (h : req.files = []) :
    handleUpload req env =
      { sends := [{ status := 400, message := "No file uploaded" }],
        actions := [], bucket := env.bucket0 } := by
  obtain ⟨files, q⟩ := req
  simp only at h
  subst h
  rfl

/-- Witness for claim C7: a request with an empty files list. -/
theorem claim_C7_witness :
    ({ files := [], question := none } : Request).files = [] ∧
    handleUpload { files := [], question := none } baseEnv =
      { sends := [{ status := 400, message := "No file uploaded" }],
        actions := [], bucket := baseEnv.bucket0 } :=
  ⟨rfl, claim_C7_no_file _ baseEnv rfl⟩

/-- Claim C2: whenever some storage put call fails (a transport error,
or the duplicate-name error that `upsert: false` turns a re-upload
into), the loop's error is thrown and caught at part_006 lines 372-375:
the client gets a single HTTP 500 carrying the error message, and no
response carries any partial `files` entries (all-or-nothing). -/
theorem claim_C2_put_failure (req : Request) (env : Env) (e : String)
    (hne : req.files ≠ [])
    (herr : (uploadLoop env req.files env.bucket0).result = .error e) :
    (handleUpload req env).sends = [{ status := 500, message := e }] ∧
    ∀ resp ∈ (handleUpload req env).sends, resp.files = none := by
  obtain ⟨files, q⟩ := req
  cases files with
  | nil => exact absurd rfl hne
  | cons f fs =>
    constructor
    · simp only [handleUpload, herr]
    · intro resp hresp
      simp only [handleUpload, herr] at hresp
      simp at hresp
      rw [hresp]

/-- Witness for claim C2: re-uploading a stored name that is already in
the bucket fails (upsert is disabled) and yields the 500 with
Supabase's duplicate-object message and no files entries. -/
theorem claim_C2_witness :
    ({ files := [dupFile], question := none } : Request).files ≠ [] ∧
    (uploadLoop envDup [dupFile] envDup.bucket0).result = .error dupErrMsg ∧
    ((handleUpload { files := [dupFile], question := none } envDup).sends =
        [{ status := 500, message := dupErrMsg }] ∧
      ∀ resp ∈ (handleUpload { files := [dupFile], question := none } envDup).sends,
        resp.files = none) :=
  ⟨by simp, rfl, claim_C2_put_failure _ envDup dupErrMsg (by simp) rfl⟩

/-- Claim C3: when every put succeeds but the bucket listing fails, the
handler sends exactly one response: HTTP 200 whose message states that
processing was skipped, carrying the files array; its `data` and
`analysis` fields are absent (the record literal pins them to `none`),
and the action trace contains only storage puts — no download, no
extraction subprocess, no simulation subprocess. -/
theorem claim_C3_listing_failure (req : Request) (env : Env)
    (es : List FileEntry) (err : String)
    (hne : req.files ≠ [])
    (hok : (uploadLoop env req.files env.bucket0).result = .ok es)
    (hlist : env.listErr = some err) :
    (handleUpload req env).sends =
      [{ status := 200, message := skipMsg, files := some es }] ∧
    ∀ a ∈ (handleUpload req env).actions, ∃ n, a = Action.put n := by
  obtain ⟨files, q⟩ := req
  cases files with
  | nil => exact absurd rfl hne
  | cons f fs =>
    constructor
    · simp only [handleUpload, hok, hlist]
    · intro a ha
      simp only [handleUpload, hok, hlist] at ha
      exact uploadLoop_acts_put env (f :: fs) env.bucket0 a ha

/-- Witness for claim C3: one successful upload, then a listing
failure. -/
theorem claim_C3_witness :
    ({ files := [dupFile], question := none } : Request).files ≠ [] ∧
    (uploadLoop envListFail [dupFile] envListFail.bucket0).result =
      .ok [entryOf envListFail dupFile] ∧
    envListFail.listErr = some "Bucket listing failed" ∧
    ((handleUpload { files := [dupFile], question := none } envListFail).sends =
        [{ status := 200, message := skipMsg,
           files := some [entryOf envListFail dupFile] }] ∧
      ∀ a ∈ (handleUpload { files := [dupFile], question := none } envListFail).actions,
        ∃ n, a = Action.put n) :=
  ⟨by simp, rfl, rfl, claim_C3_listing_failure _ envListFail _ _ (by simp) rfl rfl⟩

/-! ### Claims C1 and C4: the result-collection step is unreachable

The code sends `res.status(200).json({message, analysis})` at part_006
lines 331-334 and only then assembles the documented envelope at lines
336-363; that assembly reads the undefined identifier `question` (the
variable in scope is `userQuestion`), so it raises `ReferenceError:
question is not defined` in both artifact branches, and the catch
block's 500 can no longer be delivered (headers already sent).  The two
theorems below run the embedded handler on fully successful requests
and show the client receives the lines-331-334 response, which carries
neither `files` nor `data`. -/

/-- Claim C1 (code evaluated at the failing input): with the
comprehensive artifact `monte_carlo_analysis.json` present, the client
response is the earlier 200 `message`/`analysis` send with `data`
absent (`analysis` is `none` here since `computed_metrics.json` is
absent); the attempted second send is a 500 with the `ReferenceError`
message, contradicting the claimed `data.answer`/`data.reasoning`
envelope. -/
theorem claim_C1_artifact_run :
    handleUpload reqPdf envFullArtifact =
      { sends := [{ status := 200, message := processedMsg, analysis := none },
                  { status := 500, message := "question is not defined" }],
        actions := [Action.put "pdfFile-1757400000000-123456789.pdf",
                    Action.download "pdfFile-1757400000000-123456789.pdf",
                    Action.execPdf,
                    Action.execMC "What is the Q3 burn rate?"],
        bucket := ["pdfFile-1757400000000-123456789.pdf"] } ∧
    clientResponse (handleUpload reqPdf envFullArtifact) =
      some { status := 200, message := processedMsg, analysis := none } :=
  ⟨rfl, rfl⟩

/-- Claim C4 (code evaluated at the failing input): posting one PDF
named `report.pdf` with question "What is the Q3 burn rate?" in a fully
successful environment (metrics-only artifact present) does not yield
the claimed envelope: the client receives the 200 of lines 331-334,
whose body has `message` and `analysis` but no `files` array and no
`data.question`, and a second (undeliverable) 500 send is attempted. -/
theorem claim_C4_success_run :
    handleUpload reqPdf baseEnv =
      { sends := [{ status := 200, message := processedMsg,
                    analysis := some (Json.obj [("final_cash_balance", Json.num 250000)]) },
                  { status := 500, message := "question is not defined" }],
        actions := [Action.put "pdfFile-1757400000000-123456789.pdf",
                    Action.download "pdfFile-1757400000000-123456789.pdf",
                    Action.execPdf,
                    Action.execMC "What is the Q3 burn rate?"],
        bucket := ["pdfFile-1757400000000-123456789.pdf"] } ∧
    clientResponse (handleUpload reqPdf baseEnv) =
      some { status := 200, message := processedMsg,
             analysis := some (Json.obj [("final_cash_balance", Json.num 250000)]) } :=
  ⟨rfl, rfl⟩

/-! ### Claim C10: default question -/

/-- Claim C10: when `req.body.question` is absent or the empty string
(both falsy in JavaScript), the Monte Carlo invocation carries the
default question "Run a comprehensive financial risk analysis": the
trace holds exactly one simulation invocation and its argument is the
escaped default, which equals the default verbatim (it contains no
double quote). -/
theorem claim_C10_default_question (req : Request) (env : Env)
    (es : List FileEntry)
    (hq : req.question = none ∨ req.question = some "")
    (hne : req.files ≠ [])
    (hok : (uploadLoop env req.files env.bucket0).result = .ok es)
    (hlist : env.listErr = none) (hpdf : env.pdfErr = none) :
    mcQuestions (handleUpload req env) = [escapeQuestion defaultQuestion] ∧
    escapeQuestion defaultQuestion = defaultQuestion := by
  have huq : userQuestionOf req = defaultQuestion := by
    rcases hq with h | h <;> simp [userQuestionOf, h]
  refine ⟨?_, rfl⟩
  obtain ⟨files, q⟩ := req
  cases files with
  | nil => exact absurd rfl hne
  | cons f fs =>
    have hputs : ∀ a ∈ (uploadLoop env (f :: fs) env.bucket0).acts,
        ∃ n, a = Action.put n :=
      uploadLoop_acts_put env (f :: fs) env.bucket0
    have hdl : ∀ a ∈ downloadLoop (uploadLoop env (f :: fs) env.bucket0).bucket,
        ∃ n, a = Action.download n :=
      downloadLoop_acts _
    simp only [handleUpload, hok, hlist, hpdf, huq]
    cases hm : env.mcErr (escapeQuestion defaultQuestion) with
    | some e =>
      simp only [hm, mcQuestions]
      exact mcFilter_trace _ _ _ hputs hdl
    | none =>
      simp only [hm, mcQuestions]
      exact mcFilter_trace _ _ _ hputs hdl

/-- Witness for claim C10: a request without a question field, in a
fully successful environment. -/
theorem claim_C10_witness :
    (({ files := [dupFile], question := none } : Request).question = none ∨
      ({ files := [dupFile], question := none } : Request).question = some "") ∧
    ({ files := [dupFile], question := none } : Request).files ≠ [] ∧
    (uploadLoop baseEnv [dupFile] baseEnv.bucket0).result =
      .ok [entryOf baseEnv dupFile] ∧
    baseEnv.listErr = none ∧ baseEnv.pdfErr = none ∧
    (mcQuestions (handleUpload { files := [dupFile], question := none } baseEnv) =
        [escapeQuestion defaultQuestion] ∧
      escapeQuestion defaultQuestion = defaultQuestion) :=
  ⟨Or.inl rfl, by simp, rfl, rfl, rfl,
    claim_C10_default_question { files := [dupFile], question := none } baseEnv
      [entryOf baseEnv dupFile] (Or.inl rfl) (by simp) rfl rfl rfl⟩

/-! ### Claim C8: escaping of the question argument -/

/-- Escaping then double-quote processing is the identity on character
lists free of backslashes, dollar signs and backticks. -/
theorem shDQChars_escape :
    ∀ l : List Char, (∀ c ∈ l, c ≠ '\\' ∧ c ≠ '$' ∧ c ≠ '`') →
      shDQChars (escapeChars l) = some l := by
  intro l
  induction l with
  | nil => intro _; rfl
  | cons c rest ih =>
    intro h
    have hc := h c (by simp)
    have hr := fun d hd => h d (List.mem_cons_of_mem c hd)
    by_cases hq : c = '"'
    · subst hq
      simp [escapeChars, shDQChars, ih hr]
    · simp only [escapeChars, if_neg hq]
      rw [shDQChars.eq_def]
      simp [hc.1, hc.2.1, hc.2.2, hq, ih hr]

/-- Claim C8 counterexample: the escaping at part_006 line 301 only
prepends backslashes to double quotes, so a question consisting of a
backslash followed by a dollar sign reaches the simulation process as a
single dollar sign — the received argument differs from the original
question, refuting safe argument passing for backslashes (and likewise
dollar signs and backticks are left exposed to the shell). -/
theorem claim_C8_counterexample :
    shDQ (escapeQuestion "\\$") = some "$" ∧ ("$" : String) ≠ "\\$" :=
  ⟨rfl, by decide⟩

/-- Claim C8 amended: the escaping handles embedded double quotes —
for every question containing no backslash, dollar sign or backtick,
the argument the simulation process receives equals the original
question (double quotes included); questions containing those
characters are not passed safely. -/
theorem claim_C8_escape_quotes_only (q : String)
    (h : ∀ c ∈ q.data, c ≠ '\\' ∧ c ≠ '$' ∧ c ≠ '`') :
    shDQ (escapeQuestion q) = some q := by
  have hl := shDQChars_escape q.data h
  simp [shDQ, escapeQuestion, hl]

/-- Witness for the amended claim C8: a question with embedded double
quotes arrives intact. -/
theorem claim_C8_witness :
    (∀ c ∈ ("what is the \"Q3\" burn rate?" : String).data,
      c ≠ '\\' ∧ c ≠ '$' ∧ c ≠ '`') ∧
    shDQ (escapeQuestion "what is the \"Q3\" burn rate?") =
      some "what is the \"Q3\" burn rate?" :=
  ⟨by decide, claim_C8_escape_quotes_only _ (by decide)⟩

/-! ### Claim C6: non-PDF parts never pass the filter -/

/-- A rejected part anywhere in the list makes multer abort the whole
request with the filter's error. -/
theorem multerProcess_reject (stamp : Nat → Nat × Nat) :
    ∀ (parts : List Part) (i : Nat) (p : Part), p ∈ parts →
      fileFilterAccepts p = false →
      multerProcess stamp parts i = .error filterErrMsg := by
  intro parts
  induction parts with
  | nil => intro i p hp; simp at hp
  | cons f rest ih =>
    intro i p hp hacc
    rcases List.mem_cons.mp hp with rfl | hmem
    · simp [multerProcess, hacc]
    · by_cases hf : fileFilterAccepts f
      · simp [multerProcess, hf, ih (i + 1) p hmem hacc, Except.map]
      · simp [multerProcess, hf]

/-- Claim C6: a multipart part whose declared content type is not
`application/pdf` makes the whole pipeline abort with the filter error
before the controller runs, so no `Outcome` exists at all: the part is
never written to the storage bucket (no put action happens) and never
appears in any response's files array (no response is produced by the
handler). -/
theorem claim_C6_nonpdf_rejected (parts : List Part) (stamp : Nat → Nat × Nat)
    (q : Option String) (env : Env) (p : Part)
    (hp : p ∈ parts) (hm : p.mimetype ≠ "application/pdf") :
    fullPipeline parts stamp q env = .error filterErrMsg := by
  have hacc : fileFilterAccepts p = false := by
    simp [fileFilterAccepts, hm]
  unfold fullPipeline
  rw [multerProcess_reject stamp parts 0 p hp hacc]
  rfl

/-- Witness for claim C6: a PNG part alongside a PDF part. -/
theorem claim_C6_witness :
    pngPart ∈ [pdfPart, pngPart] ∧ pngPart.mimetype ≠ "application/pdf" ∧
    fullPipeline [pdfPart, pngPart] wStamp none baseEnv = .error filterErrMsg :=
  ⟨by decide, by decide,
    claim_C6_nonpdf_rejected _ wStamp none baseEnv pngPart (by decide) (by decide)⟩

/-! ### Claim C9: missing storage credentials -/

/-- Claim C9: when the storage URL or key environment variable is
absent (or empty) at startup, loading the configuration module still
produces a module value — `loadSupabaseConfig` is total, mirroring the
fact that supabase.js contains no throwing statement — with the
diagnostic warning emitted, and every storage put through the exported
client fails later, at request time, whatever the backend would
answer. -/
theorem claim_C9_missing_credentials (env : StartupEnv)
    (backend : String → Except String String)
    (h : (isFalsyEnv env.supabaseUrl || isFalsyEnv env.supabaseKey) = true) :
    (loadSupabaseConfig env).warned = true ∧
    ∀ name, clientPut (loadSupabaseConfig env).client name backend =
      .error "TypeError: fetch failed" := by
  constructor
  · simp [loadSupabaseConfig, h]
  · intro name
    simp [clientPut, loadSupabaseConfig, createClient, h]

/-- Witness for claim C9: unset URL, key present. -/
theorem claim_C9_witness :
    (isFalsyEnv (none : Option String) || isFalsyEnv (some "service-role-key")) = true ∧
    ((loadSupabaseConfig
        { supabaseUrl := none, supabaseKey := some "service-role-key" }).warned = true ∧
      ∀ name,
        clientPut
          (loadSupabaseConfig
            { supabaseUrl := none, supabaseKey := some "service-role-key" }).client
          name (fun n => .ok n) = .error "TypeError: fetch failed") :=
  ⟨rfl, claim_C9_missing_credentials _ _ rfl⟩

/-! ### Claim C5: shape of the files array -/

/-- On success, multer returns one `ReqFile` per part, in order, with
the generated name built from that part's stamp. -/
theorem multerProcess_ok_get (stamp : Nat → Nat × Nat) :
    ∀ (parts : List Part) (i : Nat) (fs : List ReqFile),
      multerProcess stamp parts i = .ok fs →
      fs.length = parts.length ∧
      ∀ j p, parts[j]? = some p → fs[j]? = some (mkReqFile p (stamp (i + j))) := by
  intro parts
  induction parts with
  | nil =>
    intro i fs h
    simp only [multerProcess] at h
    cases h
    constructor
    · rfl
    · intro j p hj
      simp at hj
  | cons p rest ih =>
    intro i fs h
    simp only [multerProcess] at h
    split at h
    · cases hm : multerProcess stamp rest (i + 1) with
      | error e => rw [hm] at h; simp [Except.map] at h
      | ok fs1 =>
        rw [hm] at h
        simp [Except.map] at h
        subst h
        obtain ⟨hlen, hget⟩ := ih (i + 1) fs1 hm
        constructor
        · simp [hlen]
        · intro j pp hj
          cases j with
          | zero =>
            simp at hj
            subst hj
            simp
          | succ j' =>
            simp only [List.getElem?_cons_succ] at hj ⊢
            have harith : i + (j' + 1) = i + 1 + j' := by omega
            rw [harith]
            exact hget j' pp hj
    · simp at h

/-- The generated filename splits as the field name, a hyphen, and the
rest. -/
theorem generatedFilename_split (f o : String) (ts rnd : Nat) :
    generatedFilename f o ts rnd =
      f ++ "-" ++ (toString ts ++ "-" ++ toString rnd ++ extname o) := by
  simp [generatedFilename, String.append_assoc]

/-- The generated filename is never empty. -/
theorem generatedFilename_ne_empty (f o : String) (ts rnd : Nat) :
    generatedFilename f o ts rnd ≠ "" := by
  intro h
  have hlen := congrArg String.length h
  have h1 : String.length "-" = 1 := rfl
  simp [generatedFilename, String.length_append, h1] at hlen

/-- Claim C5, amended: every `files` array a response of the pipeline
carries has exactly one entry per accepted part, in order of receipt;
each entry's `storedName` is the generated name (field name, hyphen,
timestamp, hyphen, random suffix, original extension) and is non-empty;
and it differs from `originalName` whenever the original name is not
itself of the form field name, hyphen, rest.  (The unconditional
distinctness the claim states fails; see the counterexample.) -/
theorem claim_C5_files_shape (parts : List Part) (stamp : Nat → Nat × Nat)
    (q : Option String) (env : Env) (o : Outcome)
    (hok : fullPipeline parts stamp q env = .ok o)
    (resp : Response) (hresp : resp ∈ o.sends)
    (es : List FileEntry) (hfiles : resp.files = some es) :
    es.length = parts.length ∧
    ∀ i p, parts[i]? = some p →
      ∃ e, es[i]? = some e ∧
        e.originalName = p.originalname ∧
        e.storedName =
          generatedFilename p.fieldname p.originalname (stamp i).1 (stamp i).2 ∧
        e.storedName ≠ "" ∧
        ((∀ t, p.originalname ≠ p.fieldname ++ "-" ++ t) →
          e.storedName ≠ p.originalname) := by
  unfold fullPipeline at hok
  cases hmp : multerProcess stamp parts 0 with
  | error e => rw [hmp] at hok; simp [Except.map] at hok
  | ok fs =>
    rw [hmp] at hok
    simp [Except.map] at hok
    obtain ⟨hlen, hget⟩ := multerProcess_ok_get stamp parts 0 fs hmp
    rw [← hok] at hresp
    have hes : es = ({ files := fs, question := q } : Request).files.map (entryOf env) :=
      handleUpload_files_sends { files := fs, question := q } env resp hresp es hfiles
    simp only at hes
    subst hes
    constructor
    · simp [hlen]
    · intro i p hp
      have hfs := hget i p hp
      have hzero : (0 : Nat) + i = i := by omega
      rw [hzero] at hfs
      refine ⟨entryOf env (mkReqFile p (stamp i)), ?_, rfl, rfl,
        generatedFilename_ne_empty _ _ _ _, ?_⟩
      · rw [List.getElem?_map, hfs]
        rfl
      · intro hne heq
        have hsplit := generatedFilename_split p.fieldname p.originalname
          (stamp i).1 (stamp i).2
        simp only [entryOf, mkReqFile] at heq
        rw [hsplit] at heq
        exact hne _ heq.symm

/-- Claim C5 counterexample: for a part whose original name is exactly
the name the generator produces (field name, hyphen, timestamp
1700000000000, hyphen, suffix 123456789, extension `.pdf`), the
successful response's single files entry has `storedName` equal to
`originalName`, refuting the claimed unconditional distinctness.  (The
listing fails in this run so that the files-bearing upload-success
response is the one the client receives.) -/
theorem claim_C5_counterexample :
    fullPipeline [collidingPart] collidingStamp none envListFail =
      .ok { sends := [{ status := 200, message := skipMsg,
                        files := some [{
                          originalName := "pdfFile-1700000000000-123456789.pdf",
                          storedName := "pdfFile-1700000000000-123456789.pdf",
                          supabasePath := "pdfFile-1700000000000-123456789.pdf",
                          publicUrl := "https://example.supabase.co/storage/v1/object/public/pdfs/pdfFile-1700000000000-123456789.pdf" }] }],
            actions := [Action.put "pdfFile-1700000000000-123456789.pdf"],
            bucket := ["pdfFile-1700000000000-123456789.pdf"] } :=
  rfl

/-- Witness for the amended claim C5: an ordinary part named
`report.pdf`. -/
theorem claim_C5_witness :
    fullPipeline [pdfPart] wStamp none envListFail = .ok wOut ∧
    wResp ∈ wOut.sends ∧ wResp.files = some [wEntry] ∧
    ([wEntry].length = [pdfPart].length ∧
      ∀ i p, [pdfPart][i]? = some p →
        ∃ e, [wEntry][i]? = some e ∧
          e.originalName = p.originalname ∧
          e.storedName =
            generatedFilename p.fieldname p.originalname (wStamp i).1 (wStamp i).2 ∧
          e.storedName ≠ "" ∧
          ((∀ t, p.originalname ≠ p.fieldname ++ "-" ++ t) →
            e.storedName ≠ p.originalname)) :=
  ⟨rfl, by simp [wOut], rfl,
    claim_C5_files_shape [pdfPart] wStamp none envListFail wOut rfl
      wResp (by simp [wOut]) [wEntry] rfl⟩

end SimuCFO
